import Mathlib

/-!
Verification of the Cryocooler-Controller core logic.

Shallow embedding of the decision and signal-processing logic of the
cryocooler supervisory controller:

* config constants (`config.h`),
* pure conversion helpers (`conversions.h`),
* the temperature-history analytics (`temperature.cpp`),
* the current-anomaly (overstroke) detector (`rms.cpp`),
* the supervisory state machine (`state_machine.cpp`).

Modelling conventions.  C++ `float` quantities (temperatures, voltages,
currents, rates) are modelled as exact rationals; `uint32_t` millisecond
timestamps and `uint16_t`/`uint8_t` counters are modelled as naturals with
explicit modular reduction at the points where the C++ code can wrap
(`uint32_t` subtraction, integer increments).  The module-level mutable
state of each C++ translation unit is gathered into a structure that is
threaded explicitly through the functions that mutate it.
-/

namespace Cryo

/-! ## Configuration constants (config.h) -/

def SETPOINT_K : ℚ := 78
def COARSE_FINE_THRESHOLD_K : ℚ := 85
def AMBIENT_START_K : ℚ := 295
def SETPOINT_TOLERANCE_K : ℚ := 2
def MAX_COOLDOWN_RATE_K_PER_MIN : ℚ := 1
def RMS_MAX_VOLTAGE_VDC : ℚ := 120
def MCP4921_MAX_VALUE : ℕ := 4095
def STALL_DETECT_WINDOW_MS : ℕ := 600000
def STALL_MIN_DROP_K : ℚ := 2
def SETTLE_DURATION_MS : ℕ := 60000
def BASELINE_DURATION_MS : ℕ := 300000
def INDICATOR_INIT_AMBER_MS : ℕ := 1500
def BACKOFF_DAC_STEP : ℕ := 200
def BACKOFF_MAX_COUNT : ℕ := 10
def OVERSTROKE_EMA_ALPHA : ℚ := 8/100
def OVERSTROKE_PRIME_READINGS : ℕ := 20
def OVERSTROKE_CURRENT_THRESHOLD_A : ℚ := 2
def OVERSTROKE_DEBOUNCE_MS : ℕ := 2000
def TEMP_HISTORY_SIZE : ℕ := 20

/-! ## Machine-integer helpers -/

/-- Unsigned 32-bit subtraction `a - b` as the C++ expression computes it:
the result modulo `2 ^ 32`.  Both operands are reduced first so the
definition is total on `ℕ`. -/
def sub32 (a b : ℕ) : ℕ :=
  (2 ^ 32 + a % 2 ^ 32 - b % 2 ^ 32) % 2 ^ 32

/-! ## conversions.h -/

/-- Truncation toward zero of a rational, as `static_cast` from a floating
value to an integer type behaves for in-range values. -/
def truncQ (q : ℚ) : ℤ :=
  if 0 ≤ q then ⌊q⌋ else ⌈q⌉

/-- Embedding of `conversions::tempKToDacValue` (conversions.h lines 64-81).
Maps a temperature to a DAC level: 0 at or above `ambientK`, `maxDac` at or
below `setpointK`, otherwise the linear fraction of the drop scaled to
`maxDac`, truncated to an integer and clamped to `[0, maxDac]`. -/
def tempKToDacValue (tempK ambientK setpointK : ℚ) (maxDac : ℕ) : ℕ :=
  if ambientK ≤ tempK then 0
  else if tempK ≤ setpointK then maxDac
  else
    let span := ambientK - setpointK
    let dropped := ambientK - tempK
    let fraction := dropped / span
    let raw : ℤ := truncQ (fraction * (maxDac : ℚ))
    if raw < 0 then 0
    else if (maxDac : ℤ) < raw then maxDac
    else raw.toNat

/-! ## temperature.cpp -/

/-- One retained temperature sample (timestamp in ms, temperature in K). -/
structure TempSample where
  timestampMs : ℕ
  tempK : ℚ
deriving DecidableEq, Repr

/-- Embedding of `temperature::isStalled` (temperature.cpp lines 139-161).
The first statement of the function body is a bare `return false`, so the
function returns `false` on every history; the remainder of the body is
unreachable.  The history argument is the logical oldest-to-newest sample
sequence held by the ring buffer (`sampleAt 0` up to `sampleAt (count-1)`). -/
def isStalled (_hist : List TempSample) : Bool := false

/-- The unreachable remainder of `temperature::isStalled` (the algorithm
after the short-circuiting `return false`, temperature.cpp lines 141-160):
with fewer than 2 samples return `false`; otherwise take the first sample
(scanning oldest to newest) whose timestamp is at least
`newest.timestampMs - STALL_DETECT_WINDOW_MS` as the reference, and report
a stall when the drop from it to the newest sample is below
`STALL_MIN_DROP_K`. -/
def isStalledRest (hist : List TempSample) : Bool :=
  if hist.length < 2 then false
  else
    match hist.getLast? with
    | none => false
    | some newest =>
      let windowStart :=
        if STALL_DETECT_WINDOW_MS ≤ newest.timestampMs
        then newest.timestampMs - STALL_DETECT_WINDOW_MS
        else 0
      let refTempK :=
        match hist.find? (fun s => windowStart ≤ s.timestampMs) with
        | some s => s.tempK
        | none => newest.tempK
      decide (refTempK - newest.tempK < STALL_MIN_DROP_K)

/-! ## rms.cpp — overstroke (current-anomaly) detector -/

/-- Module state of rms.cpp relevant to overstroke detection. -/
structure RmsState where
  currentA : ℚ
  currentEmaA : ℚ
  primeCount : ℕ
  overstrokeFlag : Bool
  lastOverstrokeMs : ℕ
deriving DecidableEq, Repr

/-- Embedding of `rms::init` (rms.cpp lines 69-89), detector fields only. -/
def rmsInit : RmsState :=
  { currentA := 0, currentEmaA := 0, primeCount := 0,
    overstrokeFlag := false, lastOverstrokeMs := 0 }

/-- Embedding of `rms::readCurrent` (rms.cpp lines 100-133).  The sampled
RMS current and the value of `millis()` at the debounce check are supplied
as arguments. -/
def readCurrent (current : ℚ) (nowMs : ℕ) (s : RmsState) : RmsState :=
  let s := { s with currentA := current }
  if s.primeCount < OVERSTROKE_PRIME_READINGS then
    { s with currentEmaA := current, primeCount := (s.primeCount + 1) % 2 ^ 8 }
  else
    let ema := s.currentEmaA + OVERSTROKE_EMA_ALPHA * (current - s.currentEmaA)
    let s := { s with currentEmaA := ema }
    let delta := current - ema
    if ¬ s.overstrokeFlag ∧ OVERSTROKE_CURRENT_THRESHOLD_A < delta ∧
        OVERSTROKE_DEBOUNCE_MS ≤ sub32 nowMs s.lastOverstrokeMs then
      { s with overstrokeFlag := true, lastOverstrokeMs := nowMs }
    else s

/-! ## state_machine.cpp — data model -/

/-- System states (state_machine.h). -/
inductive State where
  | Off
  | Initialize
  | Idle
  | CoarseCooldown
  | FineCooldown
  | Overshoot
  | Settle
  | Baseline
  | Operating
  | Fault
deriving DecidableEq, Repr

/-- Reason the system entered the Fault state (state_machine.cpp usage:
RmsOvervoltage, TemperatureStall, TooManyBackoffs). -/
inductive FaultReason where
  | None
  | RmsOvervoltage
  | TemperatureStall
  | TooManyBackoffs
deriving DecidableEq, Repr

/-- Indicator display modes (indicator.h). -/
inductive Mode where
  | Off
  | SolidRed
  | SolidGreen
  | SolidAmber
  | FlashFastRed
  | FlashSlowRed
  | FlashFastGreen
  | FlashSlowGreen
deriving DecidableEq, Repr

/-- Aggregate output produced by `state_machine::update` each tick. -/
structure Output where
  state : State
  dacTarget : ℕ
  bypassRelay : Bool
  alarmRelay : Bool
  faultIndMode : Mode
  readyIndMode : Mode
  statusText : String
  backoffCount : ℕ
deriving DecidableEq, Repr

/-- The module-level mutable state of state_machine.cpp (lines 22-35). -/
@[ext] structure SMState where
  currentState : State
  currentStateEntryMs : ℕ
  running : Bool
  faultReason : FaultReason
  onStateMs : ℕ
  offStateMs : ℕ
  settleStartMs : ℕ
  settleTimerActive : Bool
  backoffCount : ℕ
  backoffDacOffset : ℕ
deriving DecidableEq, Repr

/-! ## state_machine.cpp — internal helpers -/

/-- Embedding of `enterState` (state_machine.cpp lines 41-51). -/
def enterState (s : State) (nowMs : ℕ) (m : SMState) : SMState :=
  let m := { m with currentState := s, currentStateEntryMs := nowMs }
  let m := if s ≠ State.Settle
           then { m with settleTimerActive := false, settleStartMs := 0 }
           else m
  if s ≠ State.Fault then { m with faultReason := FaultReason.None } else m

/-- Embedding of `enterFault` (state_machine.cpp lines 53-57). -/
def enterFault (reason : FaultReason) (nowMs : ℕ) (m : SMState) : SMState :=
  enterState State.Fault nowMs { m with faultReason := reason, running := false }

/-- Embedding of `statusTextForState` (state_machine.cpp lines 60-80); the
fault reason it reads from module state is passed explicitly. -/
def statusTextForState (s : State) (reason : FaultReason) : String :=
  match s with
  | State.Off => "System is off"
  | State.Initialize => "Initial power up state"
  | State.Idle => "Cold stage is warm; dewar is not cooling"
  | State.CoarseCooldown => "Cooling; cold stage is above 85K"
  | State.FineCooldown => "Cooling; cold stage is below 85K"
  | State.Overshoot => "Cold stage is cooler than set point; integrator is settling"
  | State.Settle => "Cold stage temperature is settling; circuits switched to Normal"
  | State.Baseline => "Cold stage temperature has settled; collecting baseline data"
  | State.Operating => "System is operating normally; checking for deviations from baseline"
  | State.Fault =>
    match reason with
    | FaultReason.RmsOvervoltage => "Fault: RMS voltage exceeded safe limit"
    | FaultReason.TemperatureStall => "Fault: Temperature stalled during cooldown"
    | FaultReason.TooManyBackoffs => "Fault: Too many back-EMF stroke events; output backed off"
    | FaultReason.None => "Fault: Unknown reason"

/-- Embedding of `inBand` (state_machine.cpp lines 83-86). -/
def inBand (tempK : ℚ) : Bool :=
  decide (SETPOINT_K - SETPOINT_TOLERANCE_K ≤ tempK) &&
  decide (tempK ≤ SETPOINT_K + SETPOINT_TOLERANCE_K)

/-- Embedding of `overshot` (state_machine.cpp lines 89-91). -/
def overshot (tempK : ℚ) : Bool :=
  decide (tempK < SETPOINT_K - SETPOINT_TOLERANCE_K)

/-- Embedding of `cooldownDacTarget` (state_machine.cpp lines 101-115).
Both arms of the cooling-rate guard return the same proportional value, as
in the source. -/
def cooldownDacTarget (tempK coolingRate : ℚ) : ℕ :=
  let proportional :=
    tempKToDacValue tempK AMBIENT_START_K SETPOINT_K MCP4921_MAX_VALUE
  if MAX_COOLDOWN_RATE_K_PER_MIN < coolingRate then proportional
  else proportional

/-- Embedding of `buildOutput` (state_machine.cpp lines 121-201); the
module state it reads (`backoffDacOffset`, `backoffCount`, `faultReason`)
is passed explicitly. -/
def buildOutput (m : SMState) (s : State) (dacTargetIn : ℕ) : Output :=
  let dacTarget :=
    if 0 < m.backoffDacOffset ∧ 0 < dacTargetIn then
      if dacTargetIn ≤ m.backoffDacOffset then 0
      else dacTargetIn - m.backoffDacOffset
    else dacTargetIn
  let base : Output :=
    { state := s, dacTarget := dacTarget, bypassRelay := false,
      alarmRelay := false, faultIndMode := Mode.Off, readyIndMode := Mode.Off,
      statusText := statusTextForState s m.faultReason,
      backoffCount := m.backoffCount }
  match s with
  | State.Off =>
    { base with bypassRelay := true, faultIndMode := Mode.Off,
                readyIndMode := Mode.Off }
  | State.Initialize =>
    { base with bypassRelay := true, faultIndMode := Mode.SolidAmber,
                readyIndMode := Mode.SolidAmber }
  | State.Idle =>
    { base with bypassRelay := true, faultIndMode := Mode.SolidRed,
                readyIndMode := Mode.Off }
  | State.CoarseCooldown =>
    { base with bypassRelay := true, faultIndMode := Mode.FlashFastRed,
                readyIndMode := Mode.Off }
  | State.FineCooldown =>
    { base with bypassRelay := true, faultIndMode := Mode.FlashFastRed,
                readyIndMode := Mode.FlashSlowGreen }
  | State.Overshoot =>
    { base with bypassRelay := true, faultIndMode := Mode.FlashFastRed,
                readyIndMode := Mode.FlashFastGreen }
  | State.Settle =>
    { base with bypassRelay := false, faultIndMode := Mode.FlashFastRed,
                readyIndMode := Mode.FlashFastGreen }
  | State.Baseline =>
    { base with bypassRelay := false, faultIndMode := Mode.Off,
                readyIndMode := Mode.SolidGreen }
  | State.Operating =>
    { base with bypassRelay := false, faultIndMode := Mode.Off,
                readyIndMode := Mode.SolidGreen }
  | State.Fault =>
    { base with bypassRelay := true, alarmRelay := true,
                faultIndMode := Mode.FlashFastRed, readyIndMode := Mode.Off }

/-! ## state_machine.cpp — public API -/

/-- Embedding of `state_machine::init` (state_machine.cpp lines 207-215). -/
def smInit (nowMs : ℕ) : SMState :=
  enterState State.Off nowMs
    { currentState := State.Off, currentStateEntryMs := 0, running := false,
      faultReason := FaultReason.None, onStateMs := 0, offStateMs := 0,
      settleStartMs := 0, settleTimerActive := false,
      backoffCount := 0, backoffDacOffset := 0 }

/-- The per-state transition switch of `state_machine::update`
(state_machine.cpp lines 260-373), evaluated after the global fault
guards. -/
def updateCore (tempK coolingRate : ℚ) (nowMs : ℕ) (m : SMState) :
    SMState × Output :=
  let elapsed := sub32 nowMs m.currentStateEntryMs
  match m.currentState with
  | State.Off =>
    let m := if m.offStateMs = 0 then { m with offStateMs := nowMs } else m
    (m, buildOutput m State.Off 0)
  | State.Initialize =>
    let m := if m.onStateMs = 0
             then { m with onStateMs := nowMs, offStateMs := 0 } else m
    if INDICATOR_INIT_AMBER_MS ≤ elapsed then
      let m := enterState State.Idle nowMs m
      (m, buildOutput m State.Idle 0)
    else (m, buildOutput m State.Initialize 0)
  | State.Idle =>
    let m := if m.offStateMs = 0 then { m with offStateMs := nowMs } else m
    (m, buildOutput m State.Idle 0)
  | State.CoarseCooldown =>
    let target := cooldownDacTarget tempK coolingRate
    if tempK < COARSE_FINE_THRESHOLD_K then
      let m := enterState State.FineCooldown nowMs m
      (m, buildOutput m State.FineCooldown target)
    else (m, buildOutput m State.CoarseCooldown target)
  | State.FineCooldown =>
    if COARSE_FINE_THRESHOLD_K < tempK then
      let target := cooldownDacTarget tempK coolingRate
      let m := enterState State.CoarseCooldown nowMs m
      (m, buildOutput m State.CoarseCooldown target)
    else if overshot tempK then
      let m := enterState State.Overshoot nowMs m
      (m, buildOutput m State.Overshoot 0)
    else if inBand tempK then
      let m := enterState State.Settle nowMs m
      (m, buildOutput m State.Settle 0)
    else
      let target := cooldownDacTarget tempK coolingRate
      (m, buildOutput m State.FineCooldown target)
  | State.Overshoot =>
    if inBand tempK then
      let m := enterState State.Settle nowMs m
      (m, buildOutput m State.Settle 0)
    else (m, buildOutput m State.Overshoot 0)
  | State.Settle =>
    let stable := inBand tempK
    if ¬ stable then
      let m := { m with settleTimerActive := false, settleStartMs := 0 }
      (m, buildOutput m State.Settle 0)
    else if ¬ m.settleTimerActive then
      let m := { m with settleTimerActive := true, settleStartMs := nowMs }
      (m, buildOutput m State.Settle 0)
    else if SETTLE_DURATION_MS ≤ sub32 nowMs m.settleStartMs then
      let m := enterState State.Baseline nowMs m
      (m, buildOutput m State.Baseline 0)
    else (m, buildOutput m State.Settle 0)
  | State.Baseline =>
    if BASELINE_DURATION_MS ≤ elapsed then
      let m := enterState State.Operating nowMs m
      (m, buildOutput m State.Operating 0)
    else (m, buildOutput m State.Baseline 0)
  | State.Operating => (m, buildOutput m State.Operating 0)
  | State.Fault =>
    let m := if m.offStateMs = 0 then { m with offStateMs := nowMs } else m
    (m, buildOutput m State.Fault 0)

/-- Embedding of `state_machine::update` (state_machine.cpp lines 217-377):
global fault guards (overvoltage, stall in a cooldown state, overstroke
backoff escalation) evaluated first, then the per-state switch. -/
def update (tempK coolingRate rmsVoltage : ℚ) (stalled : Bool) (nowMs : ℕ)
    (overstroke : Bool) (m : SMState) : SMState × Output :=
  if m.currentState ≠ State.Fault then
    if RMS_MAX_VOLTAGE_VDC < rmsVoltage then
      let m := enterFault FaultReason.RmsOvervoltage nowMs m
      (m, buildOutput m State.Fault 0)
    else if (m.currentState = State.CoarseCooldown ∨
             m.currentState = State.FineCooldown) ∧ stalled then
      let m := enterFault FaultReason.TemperatureStall nowMs m
      (m, buildOutput m State.Fault 0)
    else if overstroke ∧ m.running then
      let newOffset := m.backoffDacOffset + BACKOFF_DAC_STEP
      let m := { m with
        backoffCount := (m.backoffCount + 1) % 2 ^ 16,
        backoffDacOffset :=
          if MCP4921_MAX_VALUE < newOffset then MCP4921_MAX_VALUE
          else newOffset }
      if BACKOFF_MAX_COUNT ≤ m.backoffCount then
        let m := enterFault FaultReason.TooManyBackoffs nowMs m
        (m, buildOutput m State.Fault 0)
      else updateCore tempK coolingRate nowMs m
    else updateCore tempK coolingRate nowMs m
  else updateCore tempK coolingRate nowMs m

/-- Embedding of `state_machine::start` (state_machine.cpp lines 399-424). -/
def start (nowMs : ℕ) (tempK : ℚ) (m : SMState) : SMState :=
  if m.running then m
  else
    let m := { m with running := true, onStateMs := nowMs, offStateMs := 0,
                      faultReason := FaultReason.None,
                      backoffCount := 0, backoffDacOffset := 0 }
    if COARSE_FINE_THRESHOLD_K ≤ tempK then
      enterState State.CoarseCooldown nowMs m
    else if overshot tempK then
      enterState State.Overshoot nowMs m
    else if inBand tempK then
      enterState State.Settle nowMs m
    else
      enterState State.FineCooldown nowMs m

/-- Embedding of `state_machine::stop` (state_machine.cpp lines 426-432). -/
def stop (nowMs : ℕ) (m : SMState) : SMState :=
  if m.running = false then m
  else
    let m := { m with running := false }
    let m := if m.offStateMs = 0 then { m with offStateMs := nowMs } else m
    let m := { m with faultReason := FaultReason.None }
    enterState State.Idle nowMs m

/-- Embedding of `state_machine::off` (state_machine.cpp lines 434-440). -/
def smOff (nowMs : ℕ) (m : SMState) : SMState :=
  if m.currentState = State.Off then m
  else
    let m := { m with running := false }
    let m := if m.offStateMs = 0 then { m with offStateMs := nowMs } else m
    let m := { m with faultReason := FaultReason.None }
    enterState State.Off nowMs m

/-- Embedding of `state_machine::isRunning` (state_machine.cpp lines
383-385). -/
def isRunning (m : SMState) : Bool := m.running

/-- Invariant of the state machine: being in the Fault state implies the
running flag is cleared (`enterFault` is the only way into Fault and it
clears the flag). -/
def FaultImpliesStopped (m : SMState) : Prop :=
  m.currentState = State.Fault → m.running = false

/-- One overstroke-flagged control tick: the state component of `update`
called with the stall flag clear and the overstroke flag set. -/
def overstrokeTick (tempK coolingRate rmsVoltage : ℚ) (nowMs : ℕ)
    (m : SMState) : SMState :=
  (update tempK coolingRate rmsVoltage false nowMs true m).1

/-!
## Supporting lemmas

The rational arithmetic operations are sealed in the library; they are
unsealed here so that concrete executions of the embedded code can be
settled by kernel evaluation.
-/

unseal Rat.add Rat.sub Rat.mul Rat.inv

theorem sub32_eq_sub {a b : ℕ} (hba : b ≤ a) (ha : a < 2 ^ 32) :
    sub32 a b = a - b := by
  have hb : b < 2 ^ 32 := lt_of_le_of_lt hba ha
  unfold sub32
  rw [Nat.mod_eq_of_lt ha, Nat.mod_eq_of_lt hb]
  have h1 : 2 ^ 32 + a - b = 2 ^ 32 + (a - b) := by omega
  rw [h1, Nat.add_mod_left, Nat.mod_eq_of_lt (by omega)]

theorem buildOutput_state (m : SMState) (s : State) (d : ℕ) :
    (buildOutput m s d).state = s := by
  cases s <;> rfl

theorem buildOutput_dacTarget (m : SMState) (s : State) (d : ℕ) :
    (buildOutput m s d).dacTarget = d - m.backoffDacOffset := by
  cases s <;>
    (simp only [buildOutput]
     split_ifs <;> omega)

theorem buildOutput_alarmRelay_fault (m : SMState) (d : ℕ) :
    (buildOutput m State.Fault d).alarmRelay = true := rfl

theorem enterState_eq_of_ne (s : State) (nowMs : ℕ) (m : SMState)
    (hs : s ≠ State.Settle) (hf : s ≠ State.Fault) :
    enterState s nowMs m =
      { m with currentState := s, currentStateEntryMs := nowMs,
               settleTimerActive := false, settleStartMs := 0,
               faultReason := FaultReason.None } := by
  cases s <;> first
    | rfl
    | exact absurd rfl hs
    | exact absurd rfl hf

theorem enterFault_eq (r : FaultReason) (nowMs : ℕ) (m : SMState) :
    enterFault r nowMs m =
      { m with currentState := State.Fault, currentStateEntryMs := nowMs,
               running := false, faultReason := r,
               settleTimerActive := false, settleStartMs := 0 } := by
  rfl

theorem enterState_currentState (s : State) (nowMs : ℕ) (m : SMState) :
    (enterState s nowMs m).currentState = s := by
  cases s <;> rfl

theorem enterState_running (s : State) (nowMs : ℕ) (m : SMState) :
    (enterState s nowMs m).running = m.running := by
  cases s <;> rfl

theorem enterState_backoffCount (s : State) (nowMs : ℕ) (m : SMState) :
    (enterState s nowMs m).backoffCount = m.backoffCount := by
  cases s <;> rfl

theorem enterState_backoffDacOffset (s : State) (nowMs : ℕ) (m : SMState) :
    (enterState s nowMs m).backoffDacOffset = m.backoffDacOffset := by
  cases s <;> rfl

theorem updateCore_running (tempK coolingRate : ℚ) (nowMs : ℕ) (m : SMState) :
    (updateCore tempK coolingRate nowMs m).1.running = m.running := by
  obtain ⟨cs, entry, run, fr, onMs, offMs, ss, sta, bc, bo⟩ := m
  cases cs
  all_goals simp only [updateCore]
  all_goals try split_ifs
  all_goals simp [enterState_running]

theorem updateCore_fault_iff (tempK coolingRate : ℚ) (nowMs : ℕ) (m : SMState) :
    (updateCore tempK coolingRate nowMs m).1.currentState = State.Fault ↔
      m.currentState = State.Fault := by
  obtain ⟨cs, entry, run, fr, onMs, offMs, ss, sta, bc, bo⟩ := m
  cases cs
  all_goals simp only [updateCore]
  all_goals try split_ifs
  all_goals simp [enterState_currentState]

theorem updateCore_output_fault_iff (tempK coolingRate : ℚ) (nowMs : ℕ)
    (m : SMState) :
    (updateCore tempK coolingRate nowMs m).2.state = State.Fault ↔
      m.currentState = State.Fault := by
  obtain ⟨cs, entry, run, fr, onMs, offMs, ss, sta, bc, bo⟩ := m
  cases cs
  all_goals simp only [updateCore]
  all_goals try split_ifs
  all_goals simp [buildOutput_state]

theorem tempKToDacValue_warm (tempK ambientK setpointK : ℚ) (maxDac : ℕ)
    (h : ambientK ≤ tempK) :
    tempKToDacValue tempK ambientK setpointK maxDac = 0 := by
  unfold tempKToDacValue
  rw [if_pos h]

theorem tempKToDacValue_cold (tempK ambientK setpointK : ℚ) (maxDac : ℕ)
    (hsa : setpointK < ambientK) (h : tempK ≤ setpointK) :
    tempKToDacValue tempK ambientK setpointK maxDac = maxDac := by
  unfold tempKToDacValue
  rw [if_neg (not_le.mpr (lt_of_le_of_lt h hsa)), if_pos h]

theorem tempKToDacValue_le (tempK ambientK setpointK : ℚ) (maxDac : ℕ) :
    tempKToDacValue tempK ambientK setpointK maxDac ≤ maxDac := by
  unfold tempKToDacValue
  dsimp only
  split_ifs <;> omega

theorem tempKToDacValue_interior_eq (tempK ambientK setpointK : ℚ)
    (maxDac : ℕ) (h1 : setpointK < tempK) (h2 : tempK < ambientK) :
    tempKToDacValue tempK ambientK setpointK maxDac =
      min maxDac
        (Int.toNat ⌊(maxDac : ℚ) * (ambientK - tempK) / (ambientK - setpointK)⌋) := by
  unfold tempKToDacValue
  rw [if_neg (not_le.mpr h2), if_neg (not_le.mpr h1)]
  dsimp only
  have hspan : (0:ℚ) < ambientK - setpointK := by linarith
  have hdrop : (0:ℚ) < ambientK - tempK := by linarith
  have hprod : (0:ℚ) ≤ (ambientK - tempK) / (ambientK - setpointK) * (maxDac : ℚ) :=
    mul_nonneg (le_of_lt (div_pos hdrop hspan)) (by positivity)
  have hcomm : (ambientK - tempK) / (ambientK - setpointK) * (maxDac : ℚ)
      = (maxDac : ℚ) * (ambientK - tempK) / (ambientK - setpointK) := by ring
  simp only [truncQ]
  rw [if_pos hprod, hcomm]
  have hfl0 : (0:ℤ) ≤ ⌊(maxDac : ℚ) * (ambientK - tempK) / (ambientK - setpointK)⌋ :=
    Int.floor_nonneg.mpr (by rw [← hcomm]; exact hprod)
  rw [if_neg (not_lt.mpr hfl0)]
  by_cases hbig :
      (maxDac : ℤ) < ⌊(maxDac : ℚ) * (ambientK - tempK) / (ambientK - setpointK)⌋
  · rw [if_pos hbig]
    omega
  · rw [if_neg hbig]
    omega

/-! ## Claim C1 -/

/-- Claim C1 (code bug): the claim states that a `stop(nowMs)` call made in
the Fault state clears the fault reason and moves the controller to Idle,
and the header documentation of `stop` promises the same; but `enterFault`
clears the `running` flag and `stop` returns immediately when not running,
so `stop` in Fault is a no-op.  This theorem evaluates the code at the
failing input: from CoarseCooldown an overvoltage tick (121 V) enters
Fault(RmsOvervoltage) with `running = false`; the subsequent `stop 10` call
changes nothing, leaving the state Fault and the reason set. -/
theorem stop_in_fault_is_noop :
    (update 200 (1/2) 121 false 5 false (start 0 295 (smInit 0))).1.currentState
        = State.Fault ∧
    (update 200 (1/2) 121 false 5 false (start 0 295 (smInit 0))).1.faultReason
        = FaultReason.RmsOvervoltage ∧
    isRunning (update 200 (1/2) 121 false 5 false (start 0 295 (smInit 0))).1
        = false ∧
    stop 10 (update 200 (1/2) 121 false 5 false (start 0 295 (smInit 0))).1
        = (update 200 (1/2) 121 false 5 false (start 0 295 (smInit 0))).1 ∧
    (stop 10 (update 200 (1/2) 121 false 5 false (start 0 295 (smInit 0))).1).currentState
        = State.Fault ∧
    (stop 10 (update 200 (1/2) 121 false 5 false (start 0 295 (smInit 0))).1).faultReason
        = FaultReason.RmsOvervoltage := by
  decide

/-! ## Claim C2 -/

/-- Claim C2 (code bug): `temperature::isStalled` is claimed to report a
stall exactly when the drop from the oldest in-window sample to the newest
is below 2 K, but the function body short-circuits to `return false` before
the algorithm runs.  At the failing input — two samples 5 minutes apart
(inside the 10-minute window) with only a 0.5 K drop — the code returns
`false` on every history while the intended algorithm (the unreachable rest
of the function, which the spec designates as the intent) returns `true`. -/
theorem isStalled_short_circuited :
    (∀ hist : List TempSample, isStalled hist = false) ∧
    isStalled [⟨0, 100⟩, ⟨300000, 199/2⟩] = false ∧
    isStalledRest [⟨0, 100⟩, ⟨300000, 199/2⟩] = true :=
  ⟨fun _ => rfl, rfl, by decide⟩

/-! ## Claim C3 -/

/-- Claim C3: on every `update` call made while the state is not Fault, a
line voltage above `RMS_MAX_VOLTAGE_VDC` (120 V) sends the controller to
Fault with reason `RmsOvervoltage`, and the returned output has state
Fault, actuator target 0 and alarm relay true — regardless of every other
input and of any per-state transition condition, because the global guard
is evaluated first. -/
theorem overvoltage_enters_fault (m : SMState)
    (tempK coolingRate rmsVoltage : ℚ) (stalled : Bool) (nowMs : ℕ)
    (overstroke : Bool)
    (hns : m.currentState ≠ State.Fault)
    (hv : RMS_MAX_VOLTAGE_VDC < rmsVoltage) :
    (update tempK coolingRate rmsVoltage stalled nowMs overstroke m).1.currentState
        = State.Fault ∧
    (update tempK coolingRate rmsVoltage stalled nowMs overstroke m).1.faultReason
        = FaultReason.RmsOvervoltage ∧
    (update tempK coolingRate rmsVoltage stalled nowMs overstroke m).2.state
        = State.Fault ∧
    (update tempK coolingRate rmsVoltage stalled nowMs overstroke m).2.dacTarget
        = 0 ∧
    (update tempK coolingRate rmsVoltage stalled nowMs overstroke m).2.alarmRelay
        = true := by
  unfold update
  rw [if_pos hns, if_pos hv]
  refine ⟨?_, ?_, ?_, ?_, ?_⟩ <;>
    simp [enterFault_eq, buildOutput_state, buildOutput_dacTarget,
          buildOutput_alarmRelay_fault]

/-- Witness for claim C3: from CoarseCooldown (reached by `start` at 295 K)
with line voltage 121 V the controller faults with reason overvoltage. -/
theorem overvoltage_enters_fault_witness :
    (update 200 (1/2) 121 false 5 false (start 0 295 (smInit 0))).1.currentState
        = State.Fault ∧
    (update 200 (1/2) 121 false 5 false (start 0 295 (smInit 0))).1.faultReason
        = FaultReason.RmsOvervoltage ∧
    (update 200 (1/2) 121 false 5 false (start 0 295 (smInit 0))).2.state
        = State.Fault ∧
    (update 200 (1/2) 121 false 5 false (start 0 295 (smInit 0))).2.dacTarget
        = 0 ∧
    (update 200 (1/2) 121 false 5 false (start 0 295 (smInit 0))).2.alarmRelay
        = true :=
  overvoltage_enters_fault (start 0 295 (smInit 0)) 200 (1/2) 121 false 5 false
    (by decide) (by decide)

/-! ## Claim C5 -/

/-- Claim C5: `start` is a no-op when the controller is already running;
otherwise it sets the running flag, resets the backoff event count, the
cumulative DAC offset and the fault reason, and selects the resume state
solely from the supplied temperature: at or above the coarse/fine
threshold (85 K) CoarseCooldown, below the tolerance band (76 K) Overshoot,
inside the band ([76 K, 80 K]) Settle, and otherwise (strictly between
80 K and 85 K) FineCooldown. -/
theorem start_selects_resume_state (nowMs : ℕ) (tempK : ℚ) (m : SMState) :
    (m.running = true → start nowMs tempK m = m) ∧
    (m.running = false →
      (start nowMs tempK m).running = true ∧
      (start nowMs tempK m).backoffCount = 0 ∧
      (start nowMs tempK m).backoffDacOffset = 0 ∧
      (start nowMs tempK m).faultReason = FaultReason.None ∧
      (start nowMs tempK m).currentState =
        (if COARSE_FINE_THRESHOLD_K ≤ tempK then State.CoarseCooldown
         else if tempK < SETPOINT_K - SETPOINT_TOLERANCE_K then State.Overshoot
         else if tempK ≤ SETPOINT_K + SETPOINT_TOLERANCE_K then State.Settle
         else State.FineCooldown)) := by
  constructor
  · intro h
    unfold start
    rw [if_pos h]
  · intro h
    unfold start
    rw [if_neg (by simp [h])]
    by_cases h1 : COARSE_FINE_THRESHOLD_K ≤ tempK
    · rw [if_pos h1, if_pos h1]
      simp [enterState]
    · rw [if_neg h1, if_neg h1]
      by_cases h2 : tempK < SETPOINT_K - SETPOINT_TOLERANCE_K
      · rw [if_pos (show overshot tempK = true by
              simp only [overshot, decide_eq_true_eq]; exact h2),
            if_pos h2]
        simp [enterState]
      · rw [if_neg (show ¬ overshot tempK = true by
              simp only [overshot, decide_eq_true_eq]; exact h2),
            if_neg h2]
        by_cases h3 : tempK ≤ SETPOINT_K + SETPOINT_TOLERANCE_K
        · rw [if_pos (show inBand tempK = true by
                simp only [inBand, Bool.and_eq_true, decide_eq_true_eq]
                exact ⟨le_of_not_lt h2, h3⟩),
              if_pos h3]
          simp [enterState]
        · rw [if_neg (show ¬ inBand tempK = true by
                simp only [inBand, Bool.and_eq_true, decide_eq_true_eq, not_and]
                intro _
                exact h3),
              if_neg h3]
          simp [enterState]

/-- Witness for claim C5: the second start is ignored while running, and
the concrete resume selections of the claim hold: 295 K resumes in
CoarseCooldown, 78 K in Settle, 74 K in Overshoot and 82 K in
FineCooldown. -/
theorem start_selects_resume_state_witness :
    start 5 80 (start 0 295 (smInit 0)) = start 0 295 (smInit 0) ∧
    (start 100 295 (smInit 0)).currentState = State.CoarseCooldown ∧
    (start 100 78 (smInit 0)).currentState = State.Settle ∧
    (start 100 74 (smInit 0)).currentState = State.Overshoot ∧
    (start 100 82 (smInit 0)).currentState = State.FineCooldown := by
  refine ⟨(start_selects_resume_state 5 80 _).1 (by decide), ?_, ?_, ?_, ?_⟩
  · rw [((start_selects_resume_state 100 295 (smInit 0)).2 (by decide)).2.2.2.2]
    decide
  · rw [((start_selects_resume_state 100 78 (smInit 0)).2 (by decide)).2.2.2.2]
    decide
  · rw [((start_selects_resume_state 100 74 (smInit 0)).2 (by decide)).2.2.2.2]
    decide
  · rw [((start_selects_resume_state 100 82 (smInit 0)).2 (by decide)).2.2.2.2]
    decide

/-! ## Claim C10 -/

/-- Claim C10: entering Fault by any cause clears the running flag.  The
invariant that Fault implies not running is established by `smInit` and
preserved by `update`, `start`, `stop` and `off`; moreover any `update`
whose output reports state Fault leaves the running flag false, and the
flag stays false across further `update`, `stop` and `off` calls (only
`start` sets it). -/
theorem fault_implies_not_running :
    (∀ nowMs, FaultImpliesStopped (smInit nowMs)) ∧
    (∀ tempK coolingRate rmsVoltage stalled nowMs overstroke m,
      FaultImpliesStopped m →
      FaultImpliesStopped
        (update tempK coolingRate rmsVoltage stalled nowMs overstroke m).1 ∧
      ((update tempK coolingRate rmsVoltage stalled nowMs overstroke m).2.state
          = State.Fault →
        isRunning
          (update tempK coolingRate rmsVoltage stalled nowMs overstroke m).1
          = false)) ∧
    (∀ tempK coolingRate rmsVoltage stalled nowMs overstroke m,
      m.running = false →
      (update tempK coolingRate rmsVoltage stalled nowMs overstroke m).1.running
        = false) ∧
    (∀ nowMs tempK m, FaultImpliesStopped m →
      FaultImpliesStopped (start nowMs tempK m)) ∧
    (∀ nowMs m, FaultImpliesStopped (stop nowMs m) ∧
      (m.running = false → (stop nowMs m).running = false)) ∧
    (∀ nowMs m, FaultImpliesStopped (smOff nowMs m) ∧
      (m.running = false → (smOff nowMs m).running = false)) := by
  refine ⟨?_, ?_, ?_, ?_, ?_, ?_⟩
  · intro nowMs _
    simp [smInit, enterState_running]
  · intro tempK coolingRate rmsVoltage stalled nowMs overstroke m hinv
    unfold update
    split_ifs with h1 h2 h3 h4
    · exact ⟨fun _ => by simp [enterFault_eq],
             fun _ => by simp [isRunning, enterFault_eq]⟩
    · exact ⟨fun _ => by simp [enterFault_eq],
             fun _ => by simp [isRunning, enterFault_eq]⟩
    · dsimp only
      split_ifs with h5 h6
      all_goals constructor
      all_goals intro hf
      all_goals try simp only [isRunning]
      all_goals first
        | (simp [enterFault_eq]; done)
        | (exfalso
           first
             | rw [updateCore_fault_iff] at hf
             | rw [updateCore_output_fault_iff] at hf
           simp at hf
           exact absurd hf h1)
    · constructor
      · intro hf
        rw [updateCore_fault_iff] at hf
        exact absurd hf h1
      · intro hf
        rw [updateCore_output_fault_iff] at hf
        exact absurd hf h1
    · push_neg at h1
      constructor
      · intro _
        rw [updateCore_running]
        exact hinv h1
      · intro _
        rw [isRunning, updateCore_running]
        exact hinv h1
  · intro tempK coolingRate rmsVoltage stalled nowMs overstroke m hrun
    unfold update
    split_ifs with h1 h2 h3 h4
    · simp [enterFault_eq]
    · simp [enterFault_eq]
    · exact absurd h4.2 (by simp [hrun])
    · rw [updateCore_running]
      exact hrun
    · rw [updateCore_running]
      exact hrun
  · intro nowMs tempK m hinv
    unfold start
    split_ifs with h1 h2 h3 h4
    · exact hinv
    all_goals intro hf
    all_goals try dsimp only at hf
    all_goals rw [enterState_currentState] at hf
    all_goals exact absurd hf (by decide)
  · intro nowMs m
    constructor
    · unfold stop
      split_ifs with h1
      all_goals intro hf
      all_goals try exact h1
      all_goals try dsimp only at hf
      all_goals rw [enterState_currentState] at hf
      all_goals exact absurd hf (by decide)
    · intro hrun
      unfold stop
      rw [if_pos hrun]
      exact hrun
  · intro nowMs m
    constructor
    · unfold smOff
      split_ifs with h1
      all_goals intro hf
      all_goals try rw [h1] at hf
      all_goals try dsimp only at hf
      all_goals try rw [enterState_currentState] at hf
      all_goals exact absurd hf (by decide)
    · intro hrun
      unfold smOff
      split_ifs with h1
      all_goals try exact hrun
      all_goals try dsimp only
      all_goals rw [enterState_running]
      all_goals first
        | rfl
        | (split_ifs <;> rfl)

/-- Witness for claim C10: concrete applications of the invariant: the
freshly initialised machine satisfies it, an overvoltage update from a
running CoarseCooldown reports Fault with the running flag cleared, and
the flag stays false across a further update. -/
theorem fault_implies_not_running_witness :
    isRunning (update 200 0 121 false 5 false (start 0 295 (smInit 0))).1
      = false ∧
    (update 100 0 0 false 6 false
      (update 200 0 121 false 5 false (start 0 295 (smInit 0))).1).1.running
      = false :=
  ⟨(fault_implies_not_running.2.1 200 0 121 false 5 false
      (start 0 295 (smInit 0)) (fun h => by revert h; decide)).2 (by decide),
   fault_implies_not_running.2.2.1 100 0 0 false 6 false
      (update 200 0 121 false 5 false (start 0 295 (smInit 0))).1 (by decide)⟩

/-! ## Claim C7 -/

/-- Counterexample for claim C7 as stated: the claim says the interior
value is the rounding of `fullScale * (warmRefK - tempK) / (warmRefK -
coldRefK)`, but the code truncates.  At `tempK = 37/4`, `warmRefK = 10`,
`coldRefK = 0`, `fullScale = 10` the exact value is `0.75`: the code
returns 0 while rounding (then clamping) gives 1. -/
theorem tempKToDacValue_round_counterexample :
    (0:ℚ) < 37/4 ∧ (37:ℚ)/4 < 10 ∧
    tempKToDacValue (37/4) 10 0 10 = 0 ∧
    round ((10:ℚ) * (10 - 37/4) / (10 - 0)) = 1 ∧
    min 10 (Int.toNat (round ((10:ℚ) * (10 - 37/4) / (10 - 0))))
      ≠ tempKToDacValue (37/4) 10 0 10 := by
  have hr : round ((10:ℚ) * (10 - 37/4) / (10 - 0)) = 1 := by
    have hx : (10:ℚ) * (10 - 37/4) / (10 - 0) = 3/4 := by norm_num
    rw [hx, round_eq]
    norm_num
  refine ⟨by norm_num, by norm_num, by decide, hr, ?_⟩
  rw [hr]
  decide

/-- Claim C7 amended: for every `tempK` strictly between `coldRefK` and
`warmRefK`, the temperature-to-level map returns the truncation toward
zero (equivalently the floor, the value being nonnegative) of
`fullScale * (warmRefK - tempK) / (warmRefK - coldRefK)`, clamped to
`[0, fullScale]` — truncation, not rounding. -/
theorem tempKToDacValue_interior (tempK warmRefK coldRefK : ℚ)
    (fullScale : ℕ) (h1 : coldRefK < tempK) (h2 : tempK < warmRefK) :
    tempKToDacValue tempK warmRefK coldRefK fullScale =
      min fullScale
        (Int.toNat ⌊(fullScale : ℚ) * (warmRefK - tempK) / (warmRefK - coldRefK)⌋) :=
  tempKToDacValue_interior_eq tempK warmRefK coldRefK fullScale h1 h2

/-- Witness for claim C7 (amended): at 100 K between the cold reference
78 K and the warm reference 295 K with full scale 4095 the map returns
the floored interpolation value 3679. -/
theorem tempKToDacValue_interior_witness :
    tempKToDacValue 100 295 78 4095 =
      min 4095 (Int.toNat ⌊(4095 : ℚ) * (295 - 100) / (295 - 78)⌋) :=
  tempKToDacValue_interior 100 295 78 4095 (by norm_num) (by norm_num)

/-! ## Claim C8 -/

/-- Claim C8: for fixed references with `warmRefK > coldRefK`, the
temperature-to-level map returns 0 at or above the warm reference,
`fullScale` at or below the cold reference, and is monotonically
non-increasing in the temperature over the whole input range. -/
theorem tempKToDacValue_bounds_monotone (warmRefK coldRefK : ℚ)
    (fullScale : ℕ) (hwc : coldRefK < warmRefK) :
    (∀ tempK, warmRefK ≤ tempK →
      tempKToDacValue tempK warmRefK coldRefK fullScale = 0) ∧
    (∀ tempK, tempK ≤ coldRefK →
      tempKToDacValue tempK warmRefK coldRefK fullScale = fullScale) ∧
    (∀ t1 t2, t1 ≤ t2 →
      tempKToDacValue t2 warmRefK coldRefK fullScale ≤
        tempKToDacValue t1 warmRefK coldRefK fullScale) := by
  refine ⟨fun tempK h => tempKToDacValue_warm tempK warmRefK coldRefK fullScale h,
          fun tempK h => tempKToDacValue_cold tempK warmRefK coldRefK fullScale hwc h,
          ?_⟩
  intro t1 t2 h12
  rcases le_or_lt warmRefK t2 with hw2 | hw2
  · rw [tempKToDacValue_warm t2 warmRefK coldRefK fullScale hw2]
    exact Nat.zero_le _
  · rcases le_or_lt t2 coldRefK with hc2 | hc2
    · rw [tempKToDacValue_cold t2 warmRefK coldRefK fullScale hwc hc2,
          tempKToDacValue_cold t1 warmRefK coldRefK fullScale hwc (le_trans h12 hc2)]
    · rcases le_or_lt t1 coldRefK with hc1 | hc1
      · rw [tempKToDacValue_cold t1 warmRefK coldRefK fullScale hwc hc1]
        exact tempKToDacValue_le t2 warmRefK coldRefK fullScale
      · rw [tempKToDacValue_interior_eq t2 warmRefK coldRefK fullScale hc2 hw2,
            tempKToDacValue_interior_eq t1 warmRefK coldRefK fullScale hc1
              (lt_of_le_of_lt h12 hw2)]
        refine min_le_min (le_refl _) ?_
        refine Int.toNat_le_toNat (Int.floor_le_floor ?_)
        gcongr
        all_goals linarith

/-- Witness for claim C8: with warm reference 295 K, cold reference 78 K
and full scale 4095, the map is 0 at 300 K, 4095 at 70 K, and its value
at 200 K does not exceed its value at 100 K. -/
theorem tempKToDacValue_bounds_monotone_witness :
    tempKToDacValue 300 295 78 4095 = 0 ∧
    tempKToDacValue 70 295 78 4095 = 4095 ∧
    tempKToDacValue 200 295 78 4095 ≤ tempKToDacValue 100 295 78 4095 :=
  ⟨(tempKToDacValue_bounds_monotone 295 78 4095 (by norm_num)).1 300 (by norm_num),
   (tempKToDacValue_bounds_monotone 295 78 4095 (by norm_num)).2.1 70 (by norm_num),
   (tempKToDacValue_bounds_monotone 295 78 4095 (by norm_num)).2.2 100 200 (by norm_num)⟩

/-! ## Claim C9 -/

/-- Claim C9: for each of the first `OVERSTROKE_PRIME_READINGS` (20)
samples the EMA baseline is set to the raw current and no overstroke is
flagged; on every later sample the baseline is first updated by
`ema := ema + 0.08 * (current - ema)`, and the flag is then set and the
event time recorded exactly when `current - ema` exceeds 2 A, no flag is
pending, and at least 2000 ms have elapsed since the last recorded event
(uint32 elapsed-time arithmetic). -/
theorem readCurrent_spec (current : ℚ) (nowMs : ℕ) (s : RmsState) :
    (s.primeCount < OVERSTROKE_PRIME_READINGS →
      readCurrent current nowMs s =
        { s with currentA := current, currentEmaA := current,
                 primeCount := (s.primeCount + 1) % 2 ^ 8 }) ∧
    (OVERSTROKE_PRIME_READINGS ≤ s.primeCount →
      ((¬ s.overstrokeFlag = true ∧
        OVERSTROKE_CURRENT_THRESHOLD_A <
          current - (s.currentEmaA + OVERSTROKE_EMA_ALPHA * (current - s.currentEmaA)) ∧
        OVERSTROKE_DEBOUNCE_MS ≤ sub32 nowMs s.lastOverstrokeMs) →
        readCurrent current nowMs s =
          { s with currentA := current,
                   currentEmaA :=
                     s.currentEmaA + OVERSTROKE_EMA_ALPHA * (current - s.currentEmaA),
                   overstrokeFlag := true, lastOverstrokeMs := nowMs }) ∧
      (¬ (¬ s.overstrokeFlag = true ∧
        OVERSTROKE_CURRENT_THRESHOLD_A <
          current - (s.currentEmaA + OVERSTROKE_EMA_ALPHA * (current - s.currentEmaA)) ∧
        OVERSTROKE_DEBOUNCE_MS ≤ sub32 nowMs s.lastOverstrokeMs) →
        readCurrent current nowMs s =
          { s with currentA := current,
                   currentEmaA :=
                     s.currentEmaA + OVERSTROKE_EMA_ALPHA * (current - s.currentEmaA) })) := by
  refine ⟨?_, fun hp => ⟨?_, ?_⟩⟩
  · intro h
    unfold readCurrent
    rw [if_pos h]
  · intro hcond
    unfold readCurrent
    rw [if_neg (not_lt.mpr hp)]
    dsimp only
    rw [if_pos hcond]
  · intro hcond
    unfold readCurrent
    rw [if_neg (not_lt.mpr hp)]
    dsimp only
    rw [if_neg hcond]

/-- Witness for claim C9: a priming call (sixth sample, 3 A) copies the
current into the EMA, and an armed call on a primed detector (baseline
1 A, sample 4 A, 5000 ms after the zero timestamp) updates the EMA to
1.24 A and raises the flag. -/
theorem readCurrent_spec_witness :
    readCurrent 3 1000 ⟨0, 0, 5, false, 0⟩ = ⟨3, 3, 6, false, 0⟩ ∧
    readCurrent 4 5000 ⟨0, 1, 20, false, 0⟩ = ⟨4, 31/25, 20, true, 5000⟩ :=
  ⟨by
    have h := (readCurrent_spec 3 1000 ⟨0, 0, 5, false, 0⟩).1 (by decide)
    rw [h]
    decide,
   by
    have h := ((readCurrent_spec 4 5000 ⟨0, 1, 20, false, 0⟩).2 (by decide)).1
      (by refine ⟨by decide, by decide, by decide⟩)
    rw [h]
    decide⟩

/-! ## Claim C4 -/

theorem updateCore_coarse (tempK coolingRate : ℚ) (nowMs : ℕ) (m : SMState)
    (hcs : m.currentState = State.CoarseCooldown)
    (ht : COARSE_FINE_THRESHOLD_K ≤ tempK) :
    updateCore tempK coolingRate nowMs m =
      (m, buildOutput m State.CoarseCooldown
            (cooldownDacTarget tempK coolingRate)) := by
  unfold updateCore
  rw [hcs]
  dsimp only
  rw [if_neg (not_lt.mpr ht)]

theorem update_coarse_overstroke (tempK coolingRate rmsVoltage : ℚ)
    (nowMs : ℕ) (m : SMState)
    (hcs : m.currentState = State.CoarseCooldown)
    (hrun : m.running = true)
    (hcnt : ¬ BACKOFF_MAX_COUNT ≤ (m.backoffCount + 1) % 2 ^ 16)
    (hoff : ¬ MCP4921_MAX_VALUE < m.backoffDacOffset + BACKOFF_DAC_STEP)
    (ht : COARSE_FINE_THRESHOLD_K ≤ tempK)
    (hv : ¬ RMS_MAX_VOLTAGE_VDC < rmsVoltage) :
    update tempK coolingRate rmsVoltage false nowMs true m =
      ({ m with backoffCount := (m.backoffCount + 1) % 2 ^ 16,
                backoffDacOffset := m.backoffDacOffset + BACKOFF_DAC_STEP },
       buildOutput
         { m with backoffCount := (m.backoffCount + 1) % 2 ^ 16,
                  backoffDacOffset := m.backoffDacOffset + BACKOFF_DAC_STEP }
         State.CoarseCooldown (cooldownDacTarget tempK coolingRate)) := by
  unfold update
  rw [if_pos (show m.currentState ≠ State.Fault by rw [hcs]; decide)]
  rw [if_neg hv]
  rw [if_neg (show ¬ ((m.currentState = State.CoarseCooldown ∨
        m.currentState = State.FineCooldown) ∧ false = true) by simp)]
  rw [if_pos (show true = true ∧ m.running = true from ⟨rfl, hrun⟩)]
  dsimp only
  rw [if_neg hoff, if_neg hcnt]
  rw [updateCore_coarse tempK coolingRate nowMs
        { m with backoffCount := (m.backoffCount + 1) % 2 ^ 16,
                 backoffDacOffset := m.backoffDacOffset + BACKOFF_DAC_STEP }
        hcs ht]

theorem update_coarse_overstroke_fault (tempK coolingRate rmsVoltage : ℚ)
    (nowMs : ℕ) (m : SMState)
    (hcs : m.currentState = State.CoarseCooldown)
    (hrun : m.running = true)
    (hcnt : BACKOFF_MAX_COUNT ≤ (m.backoffCount + 1) % 2 ^ 16)
    (hoff : ¬ MCP4921_MAX_VALUE < m.backoffDacOffset + BACKOFF_DAC_STEP)
    (hv : ¬ RMS_MAX_VOLTAGE_VDC < rmsVoltage) :
    update tempK coolingRate rmsVoltage false nowMs true m =
      (enterFault FaultReason.TooManyBackoffs nowMs
         { m with backoffCount := (m.backoffCount + 1) % 2 ^ 16,
                  backoffDacOffset := m.backoffDacOffset + BACKOFF_DAC_STEP },
       buildOutput
         (enterFault FaultReason.TooManyBackoffs nowMs
           { m with backoffCount := (m.backoffCount + 1) % 2 ^ 16,
                    backoffDacOffset := m.backoffDacOffset + BACKOFF_DAC_STEP })
         State.Fault 0) := by
  unfold update
  rw [if_pos (show m.currentState ≠ State.Fault by rw [hcs]; decide)]
  rw [if_neg hv]
  rw [if_neg (show ¬ ((m.currentState = State.CoarseCooldown ∨
        m.currentState = State.FineCooldown) ∧ false = true) by simp)]
  rw [if_pos (show true = true ∧ m.running = true from ⟨rfl, hrun⟩)]
  dsimp only
  rw [if_neg hoff, if_pos hcnt]

/-- Claim C4: with the default backoff step (200) and ceiling (10),
starting from a running CoarseCooldown state with zero backoff
bookkeeping and a temperature at or above the coarse/fine threshold:
after 9 overstroke-flagged ticks the state is still CoarseCooldown with
event count 9 and the 9th tick's emitted actuator target is the
no-backoff target reduced by 9 * 200 (the natural-number subtraction
floors at 0); the 10th such tick enters Fault(TooManyBackoffs) and its
output reports state Fault with the alarm relay on. -/
theorem backoff_escalation (m : SMState)
    (tempK coolingRate rmsVoltage : ℚ) (nowMs : ℕ)
    (hcs : m.currentState = State.CoarseCooldown)
    (hrun : m.running = true)
    (hbc : m.backoffCount = 0)
    (hbo : m.backoffDacOffset = 0)
    (ht : COARSE_FINE_THRESHOLD_K ≤ tempK)
    (hv : ¬ RMS_MAX_VOLTAGE_VDC < rmsVoltage) :
    ((overstrokeTick tempK coolingRate rmsVoltage nowMs)^[9] m).currentState
        = State.CoarseCooldown ∧
    ((overstrokeTick tempK coolingRate rmsVoltage nowMs)^[9] m).backoffCount
        = 9 ∧
    (update tempK coolingRate rmsVoltage false nowMs true
        ((overstrokeTick tempK coolingRate rmsVoltage nowMs)^[8] m)).2.dacTarget
        = cooldownDacTarget tempK coolingRate - 9 * BACKOFF_DAC_STEP ∧
    ((overstrokeTick tempK coolingRate rmsVoltage nowMs)^[10] m).currentState
        = State.Fault ∧
    ((overstrokeTick tempK coolingRate rmsVoltage nowMs)^[10] m).faultReason
        = FaultReason.TooManyBackoffs ∧
    (update tempK coolingRate rmsVoltage false nowMs true
        ((overstrokeTick tempK coolingRate rmsVoltage nowMs)^[9] m)).2.state
        = State.Fault ∧
    (update tempK coolingRate rmsVoltage false nowMs true
        ((overstrokeTick tempK coolingRate rmsVoltage nowMs)^[9] m)).2.alarmRelay
        = true := by
  have iter : ∀ k, k ≤ 9 →
      (overstrokeTick tempK coolingRate rmsVoltage nowMs)^[k] m
        = { m with backoffCount := k,
                   backoffDacOffset := k * BACKOFF_DAC_STEP } := by
    intro k
    induction k with
    | zero =>
      intro _
      simp only [Function.iterate_zero, id_eq]
      ext <;> simp [hbc, hbo]
    | succ n ih =>
      intro hn
      rw [Function.iterate_succ_apply', ih (by omega)]
      unfold overstrokeTick
      rw [update_coarse_overstroke tempK coolingRate rmsVoltage nowMs
            { m with backoffCount := n,
                     backoffDacOffset := n * BACKOFF_DAC_STEP }
            hcs hrun
            (by simp only [BACKOFF_MAX_COUNT]; omega)
            (by simp only [MCP4921_MAX_VALUE, BACKOFF_DAC_STEP]; omega)
            ht hv]
      dsimp only
      rw [show (n + 1) % 2 ^ 16 = n + 1 from by omega,
          show n * BACKOFF_DAC_STEP + BACKOFF_DAC_STEP
              = (n + 1) * BACKOFF_DAC_STEP from by ring]
  have h8 := iter 8 (by omega)
  have h9 := iter 9 (by omega)
  have htick : ∀ x, overstrokeTick tempK coolingRate rmsVoltage nowMs x
      = (update tempK coolingRate rmsVoltage false nowMs true x).1 :=
    fun _ => rfl
  have tick9 := update_coarse_overstroke tempK coolingRate rmsVoltage nowMs
      { m with backoffCount := 8, backoffDacOffset := 8 * BACKOFF_DAC_STEP }
      hcs hrun (by dsimp only; decide) (by dsimp only; decide) ht hv
  have tick10 := update_coarse_overstroke_fault tempK coolingRate rmsVoltage
      nowMs
      { m with backoffCount := 9, backoffDacOffset := 9 * BACKOFF_DAC_STEP }
      hcs hrun (by dsimp only; decide) (by dsimp only; decide) hv
  refine ⟨?_, ?_, ?_, ?_, ?_, ?_, ?_⟩
  · rw [h9]
    dsimp only
    exact hcs
  · rw [h9]
  · rw [h8, tick9]
    dsimp only
    rw [buildOutput_dacTarget]
    dsimp only
    simp only [BACKOFF_DAC_STEP]
  · rw [Function.iterate_succ_apply', htick, h9, tick10]
    simp [enterFault_eq]
  · rw [Function.iterate_succ_apply', htick, h9, tick10]
    simp [enterFault_eq]
  · rw [h9, tick10]
    dsimp only
    rw [buildOutput_state]
  · rw [h9, tick10]
    dsimp only
    rw [buildOutput_alarmRelay_fault]

/-- Witness for claim C4: concrete run from `start` at 295 K (state
CoarseCooldown, running, zero backoff bookkeeping) with temperature 100 K,
rate 1/2 K/min and 0 V line voltage. -/
theorem backoff_escalation_witness :
    ((overstrokeTick 100 (1/2) 0 7)^[9] (start 0 295 (smInit 0))).currentState
        = State.CoarseCooldown ∧
    ((overstrokeTick 100 (1/2) 0 7)^[9] (start 0 295 (smInit 0))).backoffCount
        = 9 ∧
    (update 100 (1/2) 0 false 7 true
        ((overstrokeTick 100 (1/2) 0 7)^[8] (start 0 295 (smInit 0)))).2.dacTarget
        = cooldownDacTarget 100 (1/2) - 9 * BACKOFF_DAC_STEP ∧
    ((overstrokeTick 100 (1/2) 0 7)^[10] (start 0 295 (smInit 0))).currentState
        = State.Fault ∧
    ((overstrokeTick 100 (1/2) 0 7)^[10] (start 0 295 (smInit 0))).faultReason
        = FaultReason.TooManyBackoffs ∧
    (update 100 (1/2) 0 false 7 true
        ((overstrokeTick 100 (1/2) 0 7)^[9] (start 0 295 (smInit 0)))).2.state
        = State.Fault ∧
    (update 100 (1/2) 0 false 7 true
        ((overstrokeTick 100 (1/2) 0 7)^[9] (start 0 295 (smInit 0)))).2.alarmRelay
        = true :=
  backoff_escalation (start 0 295 (smInit 0)) 100 (1/2) 0 7
    (by decide) (by decide) (by decide) (by decide) (by decide) (by decide)

/-! ## Claim C6 -/

theorem update_settle_step (tempK coolingRate rmsVoltage : ℚ) (stalled : Bool)
    (nowMs : ℕ) (m : SMState)
    (hcs : m.currentState = State.Settle)
    (hv : ¬ RMS_MAX_VOLTAGE_VDC < rmsVoltage) :
    update tempK coolingRate rmsVoltage stalled nowMs false m
      = updateCore tempK coolingRate nowMs m := by
  unfold update
  rw [if_pos (show m.currentState ≠ State.Fault by rw [hcs]; decide)]
  rw [if_neg hv]
  rw [if_neg (show ¬ ((m.currentState = State.CoarseCooldown ∨
        m.currentState = State.FineCooldown) ∧ stalled = true) by
        rw [hcs]; simp)]
  rw [if_neg (show ¬ (false = true ∧ m.running = true) by simp)]

theorem settle_tick_out (tempK coolingRate rmsVoltage : ℚ) (stalled : Bool)
    (nowMs : ℕ) (m : SMState)
    (hcs : m.currentState = State.Settle)
    (hv : ¬ RMS_MAX_VOLTAGE_VDC < rmsVoltage)
    (hb : inBand tempK = false) :
    (update tempK coolingRate rmsVoltage stalled nowMs false m).1
      = { m with settleTimerActive := false, settleStartMs := 0 } := by
  rw [update_settle_step tempK coolingRate rmsVoltage stalled nowMs m hcs hv]
  unfold updateCore
  rw [hcs]
  dsimp only
  rw [if_pos (by simp [hb])]

theorem settle_tick_arm (tempK coolingRate rmsVoltage : ℚ) (stalled : Bool)
    (nowMs : ℕ) (m : SMState)
    (hcs : m.currentState = State.Settle)
    (hv : ¬ RMS_MAX_VOLTAGE_VDC < rmsVoltage)
    (hb : inBand tempK = true)
    (hta : m.settleTimerActive = false) :
    (update tempK coolingRate rmsVoltage stalled nowMs false m).1
      = { m with settleTimerActive := true, settleStartMs := nowMs } := by
  rw [update_settle_step tempK coolingRate rmsVoltage stalled nowMs m hcs hv]
  unfold updateCore
  rw [hcs]
  dsimp only
  rw [if_neg (by simp [hb]), if_pos (by simp [hta])]

theorem settle_tick_hold (tempK coolingRate rmsVoltage : ℚ) (stalled : Bool)
    (nowMs : ℕ) (m : SMState)
    (hcs : m.currentState = State.Settle)
    (hv : ¬ RMS_MAX_VOLTAGE_VDC < rmsVoltage)
    (hb : inBand tempK = true)
    (hta : m.settleTimerActive = true)
    (hlt : sub32 nowMs m.settleStartMs < SETTLE_DURATION_MS) :
    (update tempK coolingRate rmsVoltage stalled nowMs false m).1 = m := by
  rw [update_settle_step tempK coolingRate rmsVoltage stalled nowMs m hcs hv]
  unfold updateCore
  rw [hcs]
  dsimp only
  rw [if_neg (by simp [hb]), if_neg (by simp [hta]),
      if_neg (not_le.mpr hlt)]

theorem settle_tick_fire (tempK coolingRate rmsVoltage : ℚ) (stalled : Bool)
    (nowMs : ℕ) (m : SMState)
    (hcs : m.currentState = State.Settle)
    (hv : ¬ RMS_MAX_VOLTAGE_VDC < rmsVoltage)
    (hb : inBand tempK = true)
    (hta : m.settleTimerActive = true)
    (hge : SETTLE_DURATION_MS ≤ sub32 nowMs m.settleStartMs) :
    (update tempK coolingRate rmsVoltage stalled nowMs false m).1
      = enterState State.Baseline nowMs m := by
  rw [update_settle_step tempK coolingRate rmsVoltage stalled nowMs m hcs hv]
  unfold updateCore
  rw [hcs]
  dsimp only
  rw [if_neg (by simp [hb]), if_neg (by simp [hta]), if_pos hge]

/-- Claim C6: in Settle (with the line voltage within limits and no
overstroke), an out-of-band tick resets the dwell timer to zero; an
in-band tick with the timer inactive arms it at the current time; an
in-band tick before the settle duration (60 s by the uint32 elapsed-time
computation) leaves the state untouched; an in-band tick at or past the
settle duration transitions to Baseline; and consequently a run of ticks
that stays in band continuously — an arming tick at `t0`, in-window ticks,
then a tick at least 60 s after `t0` — ends in Baseline. -/
theorem settle_dwell (tempK coolingRate rmsVoltage : ℚ) (stalled : Bool)
    (m : SMState)
    (hcs : m.currentState = State.Settle)
    (hv : ¬ RMS_MAX_VOLTAGE_VDC < rmsVoltage) :
    (∀ nowMs, inBand tempK = false →
      (update tempK coolingRate rmsVoltage stalled nowMs false m).1
        = { m with settleTimerActive := false, settleStartMs := 0 }) ∧
    (∀ nowMs, inBand tempK = true → m.settleTimerActive = false →
      (update tempK coolingRate rmsVoltage stalled nowMs false m).1
        = { m with settleTimerActive := true, settleStartMs := nowMs }) ∧
    (∀ nowMs, inBand tempK = true → m.settleTimerActive = true →
      sub32 nowMs m.settleStartMs < SETTLE_DURATION_MS →
      (update tempK coolingRate rmsVoltage stalled nowMs false m).1 = m) ∧
    (∀ nowMs, inBand tempK = true → m.settleTimerActive = true →
      SETTLE_DURATION_MS ≤ sub32 nowMs m.settleStartMs →
      (update tempK coolingRate rmsVoltage stalled nowMs false m).1.currentState
        = State.Baseline) ∧
    (∀ (t0 : ℕ) (mids : List ℕ) (tlast : ℕ),
      inBand tempK = true → m.settleTimerActive = false →
      (∀ x ∈ mids, sub32 x t0 < SETTLE_DURATION_MS) →
      SETTLE_DURATION_MS ≤ sub32 tlast t0 →
      (List.foldl
        (fun s now =>
          (update tempK coolingRate rmsVoltage stalled now false s).1)
        m (t0 :: (mids ++ [tlast]))).currentState = State.Baseline) := by
  refine ⟨?_, ?_, ?_, ?_, ?_⟩
  · intro nowMs hb
    exact settle_tick_out tempK coolingRate rmsVoltage stalled nowMs m hcs hv hb
  · intro nowMs hb hta
    exact settle_tick_arm tempK coolingRate rmsVoltage stalled nowMs m hcs hv hb hta
  · intro nowMs hb hta hlt
    exact settle_tick_hold tempK coolingRate rmsVoltage stalled nowMs m hcs hv hb hta hlt
  · intro nowMs hb hta hge
    rw [settle_tick_fire tempK coolingRate rmsVoltage stalled nowMs m hcs hv hb hta hge]
    exact enterState_currentState State.Baseline nowMs m
  · intro t0 mids tlast hb hta hmid hlast
    rw [List.foldl_cons]
    rw [settle_tick_arm tempK coolingRate rmsVoltage stalled t0 m hcs hv hb hta]
    have hhold : ∀ (l : List ℕ),
        (∀ x ∈ l, sub32 x t0 < SETTLE_DURATION_MS) →
        List.foldl
          (fun s now =>
            (update tempK coolingRate rmsVoltage stalled now false s).1)
          { m with settleTimerActive := true, settleStartMs := t0 } l
          = { m with settleTimerActive := true, settleStartMs := t0 } := by
      intro l
      induction l with
      | nil => intro _; rfl
      | cons a l ih =>
        intro hl
        rw [List.foldl_cons]
        rw [settle_tick_hold tempK coolingRate rmsVoltage stalled a
              { m with settleTimerActive := true, settleStartMs := t0 }
              hcs hv hb rfl (hl a (List.mem_cons_self a l))]
        exact ih (fun x hx => hl x (List.mem_cons_of_mem a hx))
    rw [List.foldl_append, hhold mids hmid, List.foldl_cons]
    rw [settle_tick_fire tempK coolingRate rmsVoltage stalled tlast
          { m with settleTimerActive := true, settleStartMs := t0 }
          hcs hv hb rfl hlast]
    exact enterState_currentState State.Baseline tlast _

/-- Witness for claim C6: from `start` at 78 K (state Settle, dwell timer
inactive), an out-of-band tick at 90 K resets the timer, and the in-band
run with ticks at 100 ms, 200 ms and 60100 ms (60 s after the arming
tick) ends in Baseline. -/
theorem settle_dwell_witness :
    (update 90 0 0 false 150 false (start 100 78 (smInit 0))).1
      = { (start 100 78 (smInit 0)) with
            settleTimerActive := false, settleStartMs := 0 } ∧
    (List.foldl (fun s now => (update 78 0 0 false now false s).1)
      (start 100 78 (smInit 0)) (100 :: ([200] ++ [60100]))).currentState
      = State.Baseline :=
  ⟨(settle_dwell 90 0 0 false (start 100 78 (smInit 0)) (by decide)
      (by decide)).1 150 (by decide),
   (settle_dwell 78 0 0 false (start 100 78 (smInit 0)) (by decide)
      (by decide)).2.2.2.2 100 [200] 60100 (by decide) (by decide)
      (by decide) (by decide)⟩

end Cryo
